import Mathlib

/-!
Verification of the `SpotlightCards` component
(`src/components/kokonutui/spotlight-cards.tsx`).

The component is a feature-card grid with pointer-driven 3D tilt, hover
glow and sibling dimming.  We embed its data model (display items, props
with defaults), its per-card interaction state (normalized pointer
coordinates and glow-intensity target, held in motion values), the
container's hovered-title state, the pointer event handlers
(`handleMouseMove`, `handleMouseEnter`, `handleMouseLeave` together with
the container callbacks `onHoverStart` / `onHoverEnd`), the linear tilt
transforms (`useTransform` over input range `[0, 1]`), and the rendering
of the card grid (`items.map` with the per-card `dimmed` flag).

Numeric values are modelled as rationals.  Icons are opaque tags.
-/

namespace Kokonutui

/-- Icon glyphs imported from `lucide-react`; the component treats them as
opaque references, so we model them as an enumerated tag type. -/
inductive LucideIcon where
  | Cloud
  | Code
  | Cpu
  | Globe
  | Lock
  | Zap
  deriving DecidableEq, Repr

/-- `const TILT_MAX = 9`. -/
def TILT_MAX : ℚ := 9

/-- `export interface SpotlightItem` — one display item. -/
structure SpotlightItem where
  icon : LucideIcon
  title : String
  description : String
  color : String
  deriving DecidableEq, Repr

/-- `const DEFAULT_ITEMS: SpotlightItem[]`. -/
def DEFAULT_ITEMS : List SpotlightItem :=
  [ { icon := LucideIcon.Zap,
      title := "Instant",
      description := "Sub-100ms latency on every request, globally distributed across every region.",
      color := "#f59e0b" },
    { icon := LucideIcon.Lock,
      title := "Secure",
      description := "Zero-trust by default. SOC 2 certified with end-to-end encryption throughout.",
      color := "#60a5fa" },
    { icon := LucideIcon.Globe,
      title := "Global",
      description := "Edge-deployed to 300+ locations. Your users always hit a nearby server.",
      color := "#34d399" },
    { icon := LucideIcon.Code,
      title := "Developer first",
      description := "Type-safe SDKs in five languages, a complete REST API, and honest docs.",
      color := "#a78bfa" },
    { icon := LucideIcon.Cpu,
      title := "Scalable",
      description := "From side project to Series B without touching your infrastructure config.",
      color := "#38bdf8" },
    { icon := LucideIcon.Cloud,
      title := "Serverless",
      description := "No servers to provision, patch, or babysit. Just deploy and move on.",
      color := "#f472b6" } ]

/-- `useTransform(normY, [0, 1], [TILT_MAX, -TILT_MAX])`: the linear map
sending the normalized y coordinate to the rotation about the x axis. -/
def rawRotateX (normY : ℚ) : ℚ :=
  TILT_MAX + normY * (-TILT_MAX - TILT_MAX)

/-- `useTransform(normX, [0, 1], [-TILT_MAX, TILT_MAX])`: the linear map
sending the normalized x coordinate to the rotation about the y axis. -/
def rawRotateY (normX : ℚ) : ℚ :=
  -TILT_MAX + normX * (TILT_MAX - -TILT_MAX)

/-- The result of `el.getBoundingClientRect()` for the card element. -/
structure Rect where
  left : ℚ
  top : ℚ
  width : ℚ
  height : ℚ
  deriving DecidableEq, Repr

/-- Per-card interaction state: the two normalized pointer coordinates
(motion values `normX`, `normY`, initialised to `0.5`) and the target of
the glow-opacity spring (`glowOpacity`, initialised to `0`). -/
structure CardState where
  normX : ℚ
  normY : ℚ
  glowOpacity : ℚ
  deriving DecidableEq, Repr

/-- The targets fed to the two tilt springs, derived from the card state:
`rotateX` is driven by `normY`, `rotateY` by `normX`. -/
def rotateTargets (s : CardState) : ℚ × ℚ :=
  (rawRotateX s.normY, rawRotateY s.normX)

/-- `handleMouseMove`: if `cardRef.current` is null the handler returns at
once; otherwise it reads the bounding rect and sets
`normX := (clientX - rect.left) / rect.width` and
`normY := (clientY - rect.top) / rect.height`. -/
def handleMouseMove (ref : Option Rect) (clientX clientY : ℚ)
    (s : CardState) : CardState :=
  match ref with
  | none => s
  | some rect =>
      { s with
        normX := (clientX - rect.left) / rect.width,
        normY := (clientY - rect.top) / rect.height }

/-- `handleMouseEnter` (card part): sets the glow target to `1`. -/
def handleMouseEnter (s : CardState) : CardState :=
  { s with glowOpacity := 1 }

/-- `handleMouseLeave` (card part): recenters both normalized coordinates
to `0.5` and sets the glow target to `0`. -/
def handleMouseLeave (s : CardState) : CardState :=
  { s with normX := 1/2, normY := 1/2, glowOpacity := 0 }

/-- `onHoverStart={() => setHoveredTitle(item.title)}`. -/
def onHoverStart (title : String) (_hovered : Option String) : Option String :=
  some title

/-- `onHoverEnd={() => setHoveredTitle(null)}`. -/
def onHoverEnd (_hovered : Option String) : Option String :=
  none

/-- Combined state of one card together with the container: the card's
interaction state, the container's `hoveredTitle` state, and the
caller-owned item list (props). -/
structure SystemState where
  card : CardState
  hovered : Option String
  items : List SpotlightItem
  deriving DecidableEq, Repr

/-- A pointer-move event on the card: only `handleMouseMove` runs. -/
def pointerMove (ref : Option Rect) (clientX clientY : ℚ)
    (s : SystemState) : SystemState :=
  { s with card := handleMouseMove ref clientX clientY s.card }

/-- A pointer-enter event on a card with the given title:
`handleMouseEnter` runs and calls `onHoverStart`. -/
def pointerEnter (title : String) (s : SystemState) : SystemState :=
  { s with
    card := handleMouseEnter s.card,
    hovered := onHoverStart title s.hovered }

/-- A pointer-leave event on the card: `handleMouseLeave` runs and calls
`onHoverEnd`. -/
def pointerLeave (s : SystemState) : SystemState :=
  { s with
    card := handleMouseLeave s.card,
    hovered := onHoverEnd s.hovered }

/-- The `dimmed` prop passed to a card:
`hoveredTitle !== null && hoveredTitle !== item.title`. -/
def dimmedFor (hoveredTitle : Option String) (item : SpotlightItem) : Bool :=
  match hoveredTitle with
  | none => false
  | some t => t != item.title

/-- One rendered card of the grid: its React `key`, the item it shows and
the `dimmed` flag it receives. -/
structure RenderedCard where
  key : String
  item : SpotlightItem
  dimmed : Bool
  deriving DecidableEq, Repr

/-- The card grid: `items.map((item) => <Card key={item.title} ... />)`. -/
def renderCards (items : List SpotlightItem) (hoveredTitle : Option String) :
    List RenderedCard :=
  items.map fun item =>
    { key := item.title, item := item, dimmed := dimmedFor hoveredTitle item }

/-- A rendered card counts as hovered when the container's state names its
item's title. -/
def isHovered (hoveredTitle : Option String) (c : RenderedCard) : Bool :=
  hoveredTitle == some c.item.title

/-- `export interface SpotlightCardsProps` — every field optional. -/
structure SpotlightCardsProps where
  items : Option (List SpotlightItem) := none
  eyebrow : Option String := none
  heading : Option String := none
  className : Option String := none
  deriving DecidableEq, Repr

/-- The configuration after applying the destructuring defaults of
`SpotlightCards`: `items = DEFAULT_ITEMS`, `eyebrow = "Features"`,
`heading = "Everything you need"`. -/
structure ResolvedProps where
  items : List SpotlightItem
  eyebrow : String
  heading : String
  className : Option String
  deriving DecidableEq, Repr

/-- Default application performed by the destructuring parameters of
`SpotlightCards`. -/
def resolveProps (p : SpotlightCardsProps) : ResolvedProps :=
  { items := p.items.getD DEFAULT_ITEMS,
    eyebrow := p.eyebrow.getD "Features",
    heading := p.heading.getD "Everything you need",
    className := p.className }

-- ─── Theorems ──────────────────────────────────────────────────────────────────

/-- C1: for every pointer position within a card's bounds (normalized
coordinates `x, y ∈ [0, 1]`), the target rotation values produced by the
tilt mapping stay within `[-TILT_MAX, TILT_MAX] = [-9, 9]` on both axes. -/
theorem tilt_within_bounds (x y : ℚ)
    (hx0 : 0 ≤ x) (hx1 : x ≤ 1) (hy0 : 0 ≤ y) (hy1 : y ≤ 1) :
    -TILT_MAX ≤ rawRotateX y ∧ rawRotateX y ≤ TILT_MAX ∧
    -TILT_MAX ≤ rawRotateY x ∧ rawRotateY x ≤ TILT_MAX := by
  unfold rawRotateX rawRotateY TILT_MAX
  refine ⟨by nlinarith, by nlinarith, by nlinarith, by nlinarith⟩

/-- Witness for C1 at the pointer position `(0, 0)`. -/
theorem tilt_within_bounds_witness :
    (0 ≤ (0:ℚ) ∧ (0:ℚ) ≤ 1) ∧
    (-TILT_MAX ≤ rawRotateX 0 ∧ rawRotateX 0 ≤ TILT_MAX ∧
     -TILT_MAX ≤ rawRotateY 0 ∧ rawRotateY 0 ≤ TILT_MAX) :=
  ⟨⟨by simp, by simp⟩,
   tilt_within_bounds 0 0 (by simp) (by simp) (by simp) (by simp)⟩

/-- C2: in every reachable container state (`hoveredTitle : Option String`),
when the rendered titles are distinct at most one rendered card is hovered,
and every rendered card carries the `dimmed` flag exactly when some title
is hovered and the card is not the hovered one; in particular no card is
dimmed when nothing is hovered. -/
theorem hover_dim_invariant (items : List SpotlightItem)
    (hoveredTitle : Option String)
    (hnd : (items.map SpotlightItem.title).Nodup) :
    (renderCards items hoveredTitle).countP (isHovered hoveredTitle) ≤ 1 ∧
    ∀ c ∈ renderCards items hoveredTitle,
      c.dimmed = (hoveredTitle.isSome && !(isHovered hoveredTitle c)) := by
  constructor
  · match hoveredTitle with
    | none =>
        have hz : (isHovered none ∘ fun item =>
            ({ key := item.title, item := item,
               dimmed := dimmedFor none item } : RenderedCard)) =
            fun _ => false :=
          funext fun _ => rfl
        rw [renderCards, List.countP_map, hz]
        simp
    | some t =>
        have h1 : (items.map SpotlightItem.title).count t ≤ 1 :=
          List.nodup_iff_count_le_one.1 hnd t
        rw [List.count_eq_countP, List.countP_map] at h1
        rw [renderCards, List.countP_map]
        calc List.countP (isHovered (some t) ∘ fun item =>
                ({ key := item.title, item := item,
                   dimmed := dimmedFor (some t) item } : RenderedCard)) items
            = List.countP ((fun a => a == t) ∘ SpotlightItem.title) items := by
              apply List.countP_congr
              intro a _
              simp only [Function.comp_def, isHovered, beq_iff_eq,
                Option.some.injEq]
              exact eq_comm
          _ ≤ 1 := h1
  · intro c hc
    rw [renderCards, List.mem_map] at hc
    obtain ⟨item, _, rfl⟩ := hc
    match hoveredTitle with
    | none => simp [dimmedFor, isHovered]
    | some t => simp [dimmedFor, isHovered, bne]

/-- Witness for C2 on a two-item list with distinct titles and the first
title hovered. -/
theorem hover_dim_invariant_witness :
    (([⟨LucideIcon.Zap, "A", "d1", "#000000"⟩,
       ⟨LucideIcon.Lock, "B", "d2", "#ffffff"⟩] :
        List SpotlightItem).map SpotlightItem.title).Nodup ∧
    ((renderCards
        [⟨LucideIcon.Zap, "A", "d1", "#000000"⟩,
         ⟨LucideIcon.Lock, "B", "d2", "#ffffff"⟩] (some "A")).countP
        (isHovered (some "A")) ≤ 1 ∧
     ∀ c ∈ renderCards
        [⟨LucideIcon.Zap, "A", "d1", "#000000"⟩,
         ⟨LucideIcon.Lock, "B", "d2", "#ffffff"⟩] (some "A"),
       c.dimmed = ((some "A" : Option String).isSome &&
         !(isHovered (some "A") c))) :=
  ⟨by decide,
   hover_dim_invariant
     [⟨LucideIcon.Zap, "A", "d1", "#000000"⟩,
      ⟨LucideIcon.Lock, "B", "d2", "#ffffff"⟩] (some "A") (by decide)⟩

/-- C3: handling a pointer-leave event sets the normalized coordinates to
exactly `(0.5, 0.5)`, sets the glow-intensity target to `0`, and clears
the container's hovered-item state to `none`, from every state. -/
theorem pointer_leave_resets (s : SystemState) :
    (pointerLeave s).card.normX = 1/2 ∧
    (pointerLeave s).card.normY = 1/2 ∧
    (pointerLeave s).card.glowOpacity = 0 ∧
    (pointerLeave s).hovered = none := by
  simp [pointerLeave, handleMouseLeave, onHoverEnd]

/-- C4: a pointer-move event with an available layout reference sets
`normX = (clientX - rect.left) / rect.width` and
`normY = (clientY - rect.top) / rect.height`, and the tilt mapping feeds
the y coordinate into the rotation about the x axis and the x coordinate
into the rotation about the y axis. -/
theorem pointer_move_computes_normalized (rect : Rect) (clientX clientY : ℚ)
    (s : CardState) :
    handleMouseMove (some rect) clientX clientY s =
      { s with
        normX := (clientX - rect.left) / rect.width,
        normY := (clientY - rect.top) / rect.height } ∧
    rotateTargets (handleMouseMove (some rect) clientX clientY s) =
      (rawRotateX ((clientY - rect.top) / rect.height),
       rawRotateY ((clientX - rect.left) / rect.width)) := by
  constructor
  · rfl
  · simp [handleMouseMove, rotateTargets]

/-- C5: rendering produces exactly one card per item, in the order of the
list, each keyed by that item's title. -/
theorem render_exact_items (items : List SpotlightItem)
    (hoveredTitle : Option String) :
    (renderCards items hoveredTitle).map RenderedCard.item = items ∧
    (renderCards items hoveredTitle).map RenderedCard.key =
      items.map SpotlightItem.title := by
  simp [renderCards, List.map_map, Function.comp_def]

/-- C6: rendering with an empty item list yields an empty grid — zero
cards — and, `renderCards` being total, raises no error. -/
theorem render_empty (hoveredTitle : Option String) :
    renderCards [] hoveredTitle = [] := by
  rfl

/-- C7: the props object has exactly the optional options `items`,
`eyebrow`, `heading` and the class passthrough; omitting `items` selects
the non-empty `DEFAULT_ITEMS`, omitting `eyebrow` or `heading` selects the
default texts, and supplied values are used unchanged. -/
theorem props_defaults :
    (resolveProps {}).items = DEFAULT_ITEMS ∧
    DEFAULT_ITEMS.length = 6 ∧
    (resolveProps {}).eyebrow = "Features" ∧
    (resolveProps {}).heading = "Everything you need" ∧
    (∀ (its : List SpotlightItem) (e h cl : String),
      resolveProps
          { items := some its, eyebrow := some e, heading := some h,
            className := some cl } =
        { items := its, eyebrow := e, heading := h, className := some cl }) := by
  refine ⟨rfl, rfl, rfl, rfl, ?_⟩
  intro its e h cl
  rfl

/-- C8: when the card's layout reference is unavailable, the pointer-move
handler returns immediately and the card state is unchanged; the
bounding-box arithmetic occurs only in the non-null branch. -/
theorem mouse_move_null_ref_noop (clientX clientY : ℚ) (s : CardState) :
    handleMouseMove none clientX clientY s = s := by
  rfl

/-- C9: the `dimmed` flag depends only on title equality: if two rendered
items share a title, then while that title is hovered neither of their
cards is dimmed. -/
theorem dimmed_depends_only_on_title (items : List SpotlightItem)
    (it1 it2 : SpotlightItem)
    (_h1 : it1 ∈ items) (_h2 : it2 ∈ items) (ht : it1.title = it2.title) :
    ∀ c ∈ renderCards items (some it1.title),
      c.item = it1 ∨ c.item = it2 → c.dimmed = false := by
  intro c hc hor
  rw [renderCards, List.mem_map] at hc
  obtain ⟨item, _, rfl⟩ := hc
  simp only [dimmedFor]
  rcases hor with h | h <;> simp_all [bne]

/-- Witness for C9 on two items sharing the title `"Same"`. -/
theorem dimmed_depends_only_on_title_witness :
    ((⟨LucideIcon.Zap, "Same", "d1", "#000000"⟩ : SpotlightItem) ∈
       ([⟨LucideIcon.Zap, "Same", "d1", "#000000"⟩,
         ⟨LucideIcon.Lock, "Same", "d2", "#ffffff"⟩] : List SpotlightItem) ∧
     (⟨LucideIcon.Lock, "Same", "d2", "#ffffff"⟩ : SpotlightItem) ∈
       ([⟨LucideIcon.Zap, "Same", "d1", "#000000"⟩,
         ⟨LucideIcon.Lock, "Same", "d2", "#ffffff"⟩] : List SpotlightItem) ∧
     (⟨LucideIcon.Zap, "Same", "d1", "#000000"⟩ : SpotlightItem).title =
       (⟨LucideIcon.Lock, "Same", "d2", "#ffffff"⟩ : SpotlightItem).title) ∧
    (∀ c ∈ renderCards
        [⟨LucideIcon.Zap, "Same", "d1", "#000000"⟩,
         ⟨LucideIcon.Lock, "Same", "d2", "#ffffff"⟩]
        (some (⟨LucideIcon.Zap, "Same", "d1", "#000000"⟩ :
          SpotlightItem).title),
      c.item = ⟨LucideIcon.Zap, "Same", "d1", "#000000"⟩ ∨
        c.item = ⟨LucideIcon.Lock, "Same", "d2", "#ffffff"⟩ →
      c.dimmed = false) :=
  ⟨⟨by decide, by decide, by decide⟩,
   dimmed_depends_only_on_title
     [⟨LucideIcon.Zap, "Same", "d1", "#000000"⟩,
      ⟨LucideIcon.Lock, "Same", "d2", "#ffffff"⟩]
     ⟨LucideIcon.Zap, "Same", "d1", "#000000"⟩
     ⟨LucideIcon.Lock, "Same", "d2", "#ffffff"⟩
     (by decide) (by decide) (by decide)⟩

/-- C10: a pointer-move event updates only the two normalized pointer
coordinates: the glow target, the container's hovered title and the item
data are unchanged by pointer movement. -/
theorem pointer_move_frame_effect (ref : Option Rect) (clientX clientY : ℚ)
    (s : SystemState) :
    (pointerMove ref clientX clientY s).card.glowOpacity =
      s.card.glowOpacity ∧
    (pointerMove ref clientX clientY s).hovered = s.hovered ∧
    (pointerMove ref clientX clientY s).items = s.items := by
  match ref with
  | none => exact ⟨rfl, rfl, rfl⟩
  | some rect => exact ⟨rfl, rfl, rfl⟩

end Kokonutui
